import Mathlib

/-!
Shallow embedding of the snake-game simulation core
(`useGameState` / `useKeyboard` hooks) and proofs of the spec's
testable properties about it.

Coordinates are JavaScript numbers holding integers; they are embedded
as `Int`.  The `%` operator of JavaScript is truncated remainder, which
is `Int.tmod` in Lean (`(-7) % 3 = -1` in JS).  `Math.floor(x / 2)` on
a nonnegative integer is `Nat` division.  Randomness
(`Math.random()`-derived samples) is embedded as explicit oracle
streams passed to each generator; theorems that depend on the range of
`Math.floor(Math.random() * k)` take that range as a hypothesis.
-/

namespace Snake

/-- A cell of the board (`Position` in `types`): integer coordinates. -/
structure Position where
  x : Int
  y : Int
deriving DecidableEq, Repr

/-- The `Trap` record from `types`: a cell plus identity, spawn time and trigger flag. -/
structure Trap where
  id : String
  x : Int
  y : Int
  spawnTime : Int
  isTriggered : Bool
deriving DecidableEq, Repr

/-- The `Obstacle` record from `types`: an axis-aligned rectangle footprint. -/
structure Obstacle where
  id : String
  x : Int
  y : Int
  width : Int
  height : Int
deriving DecidableEq, Repr

/-- The four movement directions. -/
inductive Direction where
  | UP
  | DOWN
  | LEFT
  | RIGHT
deriving DecidableEq, Repr

/-- The `DIRECTIONS` table from `constants/gameConfig`: unit vector of each direction. -/
def DIRECTIONS : Direction → Position
  | .UP => ⟨0, -1⟩
  | .DOWN => ⟨0, 1⟩
  | .LEFT => ⟨-1, 0⟩
  | .RIGHT => ⟨1, 0⟩

/-- The `GameState` record from `types` (the optional `currentSpeed` field is never
written by the hook and is omitted; `trapWarning` is kept as an `Option`). -/
structure GameState where
  snake : List Position
  food : Position
  traps : List Trap
  obstacles : List Obstacle
  direction : Direction
  score : Nat
  isGameOver : Bool
  isPlaying : Bool
  trapWarning : Option Position
  obstacleReshapeCountdown : Int
deriving DecidableEq, Repr

/-- Function `wrapPosition` from `useGameState`:
`((v % n) + n) % n` on each axis, with JavaScript's truncated `%`
(= `Int.tmod`). -/
def wrapPosition (boardWidth boardHeight : Int) (position : Position) : Position :=
  ⟨Int.tmod (Int.tmod position.x boardWidth + boardWidth) boardWidth,
   Int.tmod (Int.tmod position.y boardHeight + boardHeight) boardHeight⟩

/-- Function `isObstacleCollision` from `useGameState`: inclusive-lower,
exclusive-upper rectangle containment against any obstacle. -/
def isObstacleCollision (position : Position) (obstacles : List Obstacle) : Bool :=
  obstacles.any fun obstacle =>
    decide (obstacle.x ≤ position.x) &&
    decide (position.x < obstacle.x + obstacle.width) &&
    decide (obstacle.y ≤ position.y) &&
    decide (position.y < obstacle.y + obstacle.height)

/-- Function `checkSelfCollision` from `useGameState`: the head against the rest
of the body (`snake.slice(1).some(...)`; an empty list yields `false`
because the callback never runs). -/
def checkSelfCollision (snake : List Position) : Bool :=
  match snake with
  | [] => false
  | head :: rest => rest.any fun segment => segment.x == head.x && segment.y == head.y

/-- Function `reduceSnakeLength` from `useGameState`:
`snake.slice(0, Math.max(1, Math.floor(snake.length / 2)))`. -/
def reduceSnakeLength (snake : List Position) : List Position :=
  snake.take (max 1 (snake.length / 2))

/-- The shared `do { candidate; attempts++ } while (attempts < maxAttempts
&& conflict)` rejection-sampling loop of `generateRandomFood` and
`generateRandomTrap`.  `stream i` is the candidate produced by the two
`Math.random()` calls of attempt `i`; the result is the final candidate
together with the final value of `attempts`.  `fuel` bounds the
recursion and equals `maxAttempts` at the top-level call, so the
fuel-exhausted base case (which returns the candidate like the loop
does when `attempts` reaches `maxAttempts`) is never reached earlier
than the loop's own bound. -/
def rejectionLoop (stream : Nat → Position) (conflict : Position → Bool)
    (maxAttempts : Nat) : Nat → Nat → Position × Nat
  | 0, attempts => (stream attempts, attempts + 1)
  | fuel + 1, attempts =>
    if attempts + 1 < maxAttempts && conflict (stream attempts) then
      rejectionLoop stream conflict maxAttempts fuel (attempts + 1)
    else
      (stream attempts, attempts + 1)

/-- The occupancy test of `generateRandomFood`'s loop condition:
snake cell, trap cell, or obstacle footprint. -/
def foodConflict (snake : List Position) (traps : List Trap)
    (obstacles : List Obstacle) (newFood : Position) : Bool :=
  (snake.any fun segment => segment.x == newFood.x && segment.y == newFood.y) ||
  (traps.any fun trap => trap.x == newFood.x && trap.y == newFood.y) ||
  isObstacleCollision newFood obstacles

/-- Function `generateRandomFood` from `useGameState` (also returns the final
`attempts` counter so that budget exhaustion is observable). -/
def generateRandomFood (stream : Nat → Position) (snake : List Position)
    (traps : List Trap) (obstacles : List Obstacle) : Position × Nat :=
  rejectionLoop stream (foodConflict snake traps obstacles) 100 100 0

/-- The occupancy test of `generateRandomTrap`'s loop condition:
snake cell, the food cell, an existing trap cell, or an obstacle
footprint. -/
def trapConflict (snake : List Position) (food : Position) (existingTraps : List Trap)
    (obstacles : List Obstacle) (newTrap : Position) : Bool :=
  (snake.any fun segment => segment.x == newTrap.x && segment.y == newTrap.y) ||
  (food.x == newTrap.x && food.y == newTrap.y) ||
  (existingTraps.any fun trap => trap.x == newTrap.x && trap.y == newTrap.y) ||
  isObstacleCollision newTrap obstacles

/-- Function `generateRandomTrap` from `useGameState`.  `newId` and `now` stand for
the `Date.now()` / `Math.random()`-derived identifier and timestamp. -/
def generateRandomTrap (stream : Nat → Position) (newId : String) (now : Int)
    (snake : List Position) (food : Position) (existingTraps : List Trap)
    (obstacles : List Obstacle) : Option Trap :=
  let r := rejectionLoop stream (trapConflict snake food existingTraps obstacles) 100 100 0
  if 100 ≤ r.2 then
    none
  else
    some ⟨newId, r.1.x, r.1.y, now, false⟩

/-- The wrapped head cell one tick ahead: `snake[0]` plus the current
direction vector, wrapped through `wrapPosition` (lines 374–384 of the
tick function; `headD` supplies a dummy for the impossible empty snake). -/
def nextHead (boardWidth boardHeight : Int) (st : GameState) : Position :=
  let head := st.snake.headD ⟨0, 0⟩
  let directionVector := DIRECTIONS st.direction
  wrapPosition boardWidth boardHeight ⟨head.x + directionVector.x, head.y + directionVector.y⟩

/-- Function `moveSnake` from `useGameState`: one tick of the simulation.
`foodStream` feeds `generateRandomFood` when food is eaten.  The second
component of the result is the new value of `gameSpeedRef` (the tick
interval in milliseconds); event recording and the delayed trap-removal
`setTimeout` are external side effects and are not part of the returned
state (the removal callback is modelled separately as `trapRemovalStep`). -/
def moveSnake (boardWidth boardHeight : Int) (foodStream : Nat → Position)
    (st : GameState) (speed : Int) : GameState × Int :=
  if !st.isPlaying || st.isGameOver then
    (st, speed)
  else
    let newHead := nextHead boardWidth boardHeight st
    let newSnake := newHead :: st.snake
    if checkSelfCollision newSnake then
      ({ st with isGameOver := true, isPlaying := false }, speed)
    else if isObstacleCollision newHead st.obstacles then
      ({ st with isGameOver := true, isPlaying := false }, speed)
    else
      let hitTrap := st.traps.find? fun trap =>
        !trap.isTriggered && trap.x == newHead.x && trap.y == newHead.y
      let newSnake1 :=
        match hitTrap with
        | some _ => reduceSnakeLength newSnake
        | none => newSnake
      let newTraps :=
        match hitTrap with
        | some ht => st.traps.map fun trap =>
            if trap.id == ht.id then { trap with isTriggered := true } else trap
        | none => st.traps
      let trapWarning : Option Position := hitTrap.map fun ht => ⟨ht.x, ht.y⟩
      let ateFood := newHead.x == st.food.x && newHead.y == st.food.y
      if ateFood then
        let newFood := (generateRandomFood foodStream newSnake1 newTraps st.obstacles).1
        let newScore := st.score + 1
        let newSpeed := if newScore % 10 == 0 then max 50 (speed - 5) else speed
        ({ st with snake := newSnake1, food := newFood, score := newScore,
                   traps := newTraps, trapWarning := trapWarning }, newSpeed)
      else
        let newSnake2 :=
          match hitTrap with
          | some _ => newSnake1
          | none => newSnake1.dropLast
        ({ st with snake := newSnake2, traps := newTraps,
                   trapWarning := trapWarning }, speed)

/-- The delayed trap-removal callback scheduled by `moveSnake` after a
trap hit (the `setTimeout` body at lines 454–460). -/
def trapRemovalStep (hitTrapId : String) (st : GameState) : GameState :=
  { st with traps := st.traps.filter fun trap => !(trap.id == hitTrapId),
            trapWarning := none }

/-- Function `changeDirection` from `useGameState`: stores the requested direction
unconditionally. -/
def changeDirection (st : GameState) (newDirection : Direction) : GameState :=
  { st with direction := newDirection }

/-- The `oppositeDirections` table of `useKeyboard`. -/
def oppositeDirections : Direction → Direction
  | .UP => .DOWN
  | .DOWN => .UP
  | .LEFT => .RIGHT
  | .RIGHT => .LEFT

/-- The direction-change acceptance step of `useKeyboard` (lines 48–63):
a decoded key `newDirection` updates `lastDirectionRef` and is forwarded
to `changeDirection` only when it is not the exact reverse of the last
accepted direction.  Returns the new `lastDirectionRef` value and the
game state after the (possibly suppressed) `changeDirection` call. -/
def handleDirectionKey (lastDirection newDirection : Direction)
    (st : GameState) : Direction × GameState :=
  if newDirection ≠ oppositeDirections lastDirection then
    (newDirection, changeDirection st newDirection)
  else
    (lastDirection, st)

/-- The trap-scheduler firing of `scheduleNextTrap` (the `setTimeout`
body at lines 263–277): add one trap only while playing, not game over,
and strictly below `maxTraps`. -/
def trapSchedulerFire (stream : Nat → Position) (newId : String) (now : Int)
    (maxTraps : Nat) (st : GameState) : GameState :=
  if !st.isPlaying || st.isGameOver || decide (maxTraps ≤ st.traps.length) then
    st
  else
    match generateRandomTrap stream newId now st.snake st.food st.traps st.obstacles with
    | none => st
    | some newTrap => { st with traps := st.traps ++ [newTrap] }

/-- The state-update half of `togglePause` (the timer bookkeeping is an
external side effect). -/
def togglePauseState (st : GameState) : GameState :=
  { st with isPlaying := !st.isPlaying }

/-- The conflict scan of the obstacle placement loop: some cell of the
`width × height` rectangle at `(x, y)` is already in `usedPositions`
(the `for dx / for dy / usedPositions.has` nest; a nonpositive extent
runs no iterations, as in the source). -/
def rectConflict (usedPositions : List Position) (x y width height : Int) : Bool :=
  (List.range width.toNat).any fun dx =>
    (List.range height.toNat).any fun dy =>
      usedPositions.any fun p => p.x == x + dx && p.y == y + dy

/-- The cells of the `width × height` rectangle at `(x, y)`, as marked
used after a successful placement. -/
def rectCells (x y width height : Int) : List Position :=
  (List.range width.toNat).flatMap fun dx =>
    (List.range height.toNat).map fun dy => (⟨x + dx, y + dy⟩ : Position)

/-- The reserved cells around a snake seeded into `usedPositions` before
obstacle placement: every cell within `margin` of a segment in both
axes, clipped to the board (`generateObstacles` uses `margin = 3`,
`generateSafeObstacles` uses `GAME_CONFIG.SAFE_DISTANCE_FROM_SNAKE`). -/
def snakeExclusionCells (boardWidth boardHeight margin : Int)
    (snake : List Position) : List Position :=
  snake.flatMap fun segment =>
    ((List.range (2 * margin.toNat + 1)).flatMap fun dxi =>
        (List.range (2 * margin.toNat + 1)).map fun dyi =>
          (⟨segment.x + dxi - margin, segment.y + dyi - margin⟩ : Position)).filter
      fun p =>
        decide (0 ≤ p.x) && decide (p.x < boardWidth) &&
        decide (0 ≤ p.y) && decide (p.y < boardHeight)

/-- One obstacle's bounded-retry attempt loop (the inner `while
(attempts < maxAttempts)` of `generateObstacles` /
`generateSafeObstacles`).  `rand i k` models the value of
`Math.floor(Math.random() * k)` at the `i`-th `Math.random()` call;
each attempt consumes four calls (width, height, x, y).  Returns the
placed obstacle (if any), the next call counter, and the updated
used-cell list. -/
def attemptObstacle (rand : Nat → Int → Int)
    (boardWidth boardHeight minSize maxSize : Int) (idStr : String) :
    Nat → Nat → List Position → Option Obstacle × Nat × List Position
  | 0, ctr, used => (none, ctr, used)
  | fuel + 1, ctr, used =>
    let width := rand ctr (maxSize - minSize + 1) + minSize
    let height := rand (ctr + 1) (maxSize - minSize + 1) + minSize
    let x := rand (ctr + 2) (boardWidth - width)
    let y := rand (ctr + 3) (boardHeight - height)
    if rectConflict used x y width height then
      attemptObstacle rand boardWidth boardHeight minSize maxSize idStr fuel (ctr + 4) used
    else
      (some ⟨idStr, x, y, width, height⟩, ctr + 4, used ++ rectCells x y width height)

/-- The outer `for (i = 0; i < OBSTACLES_COUNT; i++)` loop shared by
`generateObstacles` and `generateSafeObstacles`: place up to `remaining`
more obstacles, skipping any whose attempt budget is exhausted. -/
def placeObstaclesLoop (rand : Nat → Int → Int)
    (boardWidth boardHeight minSize maxSize : Int) (maxAttempts : Nat)
    (idOf : Nat → String) :
    Nat → Nat → Nat → List Position → List Obstacle
  | 0, _, _, _ => []
  | remaining + 1, i, ctr, used =>
    match attemptObstacle rand boardWidth boardHeight minSize maxSize (idOf i)
        maxAttempts ctr used with
    | (none, ctr', used') =>
      placeObstaclesLoop rand boardWidth boardHeight minSize maxSize maxAttempts idOf
        remaining (i + 1) ctr' used'
    | (some obstacle, ctr', used') =>
      obstacle :: placeObstaclesLoop rand boardWidth boardHeight minSize maxSize
        maxAttempts idOf remaining (i + 1) ctr' used'

/-- Function `generateObstacles` from `useGameState`: seed the exclusion zone from
the initial snake with margin 3, then place `count`
(`GAME_CONFIG.OBSTACLES_COUNT`) obstacles with a 100-attempt budget each. -/
def generateObstacles (rand : Nat → Int → Int)
    (boardWidth boardHeight minSize maxSize : Int) (count : Nat)
    (initialSnake : List Position) : List Obstacle :=
  placeObstaclesLoop rand boardWidth boardHeight minSize maxSize 100
    (fun i => "obstacle_" ++ toString i) count 0 0
    (snakeExclusionCells boardWidth boardHeight 3 initialSnake)

/-- Function `generateSafeObstacles` from `useGameState`: the same loop with the
live snake's safety margin (`GAME_CONFIG.SAFE_DISTANCE_FROM_SNAKE`), a
200-attempt budget, and reshape-tagged identifiers (`now` stands for
`Date.now()`). -/
def generateSafeObstacles (rand : Nat → Int → Int)
    (boardWidth boardHeight minSize maxSize : Int) (count : Nat)
    (safeDistance : Int) (now : Int) (currentSnake : List Position) : List Obstacle :=
  placeObstaclesLoop rand boardWidth boardHeight minSize maxSize 200
    (fun i => "obstacle_reshape_" ++ toString now ++ "_" ++ toString i) count 0 0
    (snakeExclusionCells boardWidth boardHeight safeDistance currentSnake)

/-- One firing of the obstacle-reshape countdown (the `setInterval` body
of `startObstacleReshapeTimer`, lines 293–323).  `newCountdown` stands
for the freshly drawn `Math.floor(reshapeTime / 1000)`. -/
def obstacleReshapeStep (rand : Nat → Int → Int) (foodStream : Nat → Position)
    (boardWidth boardHeight minSize maxSize : Int) (count : Nat)
    (safeDistance : Int) (now : Int) (newCountdown : Int) (st : GameState) : GameState :=
  if !st.isPlaying || st.isGameOver then
    st
  else
    let c := st.obstacleReshapeCountdown - 1
    if c ≤ 0 then
      let newObstacles := generateSafeObstacles rand boardWidth boardHeight minSize maxSize
        count safeDistance now st.snake
      let newFood := (generateRandomFood foodStream st.snake st.traps newObstacles).1
      { st with obstacles := newObstacles, food := newFood,
                obstacleReshapeCountdown := newCountdown }
    else
      { st with obstacleReshapeCountdown := c }

/-- The fresh state built by `resetGame` (lines 592–607): initial snake,
fresh obstacles and food, no traps, direction `RIGHT`, score 0, idle. -/
def resetGameState (rand : Nat → Int → Int) (foodStream : Nat → Position)
    (boardWidth boardHeight minSize maxSize : Int) (count : Nat)
    (initialSnake : List Position) (newCountdown : Int) : GameState :=
  let newObstacles := generateObstacles rand boardWidth boardHeight minSize maxSize
    count initialSnake
  { snake := initialSnake,
    food := (generateRandomFood foodStream initialSnake [] newObstacles).1,
    traps := [],
    obstacles := newObstacles,
    direction := .RIGHT,
    score := 0,
    isGameOver := false,
    isPlaying := false,
    trapWarning := none,
    obstacleReshapeCountdown := newCountdown }

/-- An obstacle rectangle lies entirely within the board. -/
def obstacleInBounds (boardWidth boardHeight : Int) (obstacle : Obstacle) : Bool :=
  decide (0 ≤ obstacle.x) && decide (obstacle.x + obstacle.width ≤ boardWidth) &&
  decide (0 ≤ obstacle.y) && decide (obstacle.y + obstacle.height ≤ boardHeight)

/-- The scenario state of §8: snake `(10,10),(9,10),(8,10)` heading
`RIGHT` with nothing at the next head cell. -/
def st9 : GameState :=
  { snake := [⟨10, 10⟩, ⟨9, 10⟩, ⟨8, 10⟩],
    food := ⟨0, 0⟩, traps := [], obstacles := [], direction := .RIGHT,
    score := 0, isGameOver := false, isPlaying := true,
    trapWarning := none, obstacleReshapeCountdown := 30 }

/-- An idle state used to exercise the direction filter. -/
def stIdle : GameState :=
  { snake := [⟨10, 10⟩, ⟨9, 10⟩, ⟨8, 10⟩],
    food := ⟨0, 0⟩, traps := [], obstacles := [], direction := .RIGHT,
    score := 0, isGameOver := false, isPlaying := false,
    trapWarning := none, obstacleReshapeCountdown := 30 }

/-- A playing state with a snake of length 7 heading `RIGHT` into an
untriggered trap at `(11, 10)`. -/
def st7 : GameState :=
  { snake := [⟨10, 10⟩, ⟨9, 10⟩, ⟨8, 10⟩, ⟨7, 10⟩, ⟨6, 10⟩, ⟨5, 10⟩, ⟨4, 10⟩],
    food := ⟨0, 0⟩, traps := [⟨"trap_1", 11, 10, 0, false⟩], obstacles := [],
    direction := .RIGHT, score := 0, isGameOver := false, isPlaying := true,
    trapWarning := none, obstacleReshapeCountdown := 30 }

/-- A playing state whose next head cell `(11, 10)` is part of the
snake body (a self-collision tick). -/
def st4 : GameState :=
  { snake := [⟨10, 10⟩, ⟨11, 10⟩],
    food := ⟨0, 0⟩, traps := [], obstacles := [], direction := .RIGHT,
    score := 5, isGameOver := false, isPlaying := true,
    trapWarning := none, obstacleReshapeCountdown := 30 }

/-- A playing state at score 9 about to eat food at the next head cell
`(11, 10)`, crossing the multiple-of-10 boundary. -/
def st6 : GameState :=
  { snake := [⟨10, 10⟩, ⟨9, 10⟩],
    food := ⟨11, 10⟩, traps := [], obstacles := [], direction := .RIGHT,
    score := 9, isGameOver := false, isPlaying := true,
    trapWarning := none, obstacleReshapeCountdown := 30 }

/-- A playing state already holding the maximum of 3 traps. -/
def st8 : GameState :=
  { snake := [⟨10, 10⟩, ⟨9, 10⟩],
    food := ⟨0, 0⟩,
    traps := [⟨"t1", 1, 1, 0, false⟩, ⟨"t2", 2, 2, 0, false⟩, ⟨"t3", 3, 3, 0, false⟩],
    obstacles := [], direction := .RIGHT,
    score := 0, isGameOver := false, isPlaying := true,
    trapWarning := none, obstacleReshapeCountdown := 30 }

/-- Truncated remainder by a positive modulus is strictly above `-n`. -/
theorem neg_lt_tmod (v : Int) {n : Int} (hn : 0 < n) : -n < Int.tmod v n := by
  rcases le_or_lt 0 v with hv | hv
  · have h := Int.tmod_nonneg n hv
    omega
  · obtain ⟨m, rfl⟩ := Int.eq_negSucc_of_lt_zero hv
    obtain ⟨k, rfl⟩ := Int.eq_succ_of_zero_lt hn
    have h1 : (m + 1) % (k + 1) < k + 1 := Nat.mod_lt _ (Nat.succ_pos k)
    have h2 : Int.tmod (Int.negSucc m) ((Nat.succ k : Nat) : Int) =
        -(((m + 1) % (k + 1) : Nat) : Int) := rfl
    rw [h2]
    omega

/-- The wrapped coordinate of one axis lies in `[0, n)`. -/
theorem wrapCoord_bounds (v : Int) {n : Int} (hn : 0 < n) :
    0 ≤ Int.tmod (Int.tmod v n + n) n ∧ Int.tmod (Int.tmod v n + n) n < n := by
  have hlow : -n < Int.tmod v n := neg_lt_tmod v hn
  have hup : Int.tmod v n < n := Int.tmod_lt_of_pos v hn
  have hs : 0 ≤ Int.tmod v n + n := by omega
  exact ⟨Int.tmod_nonneg n hs, Int.tmod_lt_of_pos _ hn⟩

/-- C3: For every integer input cell, including cells with negative
coordinates, `wrapPosition` returns a cell whose `x` lies in
`[0, boardWidth)` and whose `y` lies in `[0, boardHeight)`, computed as
`((v % n) + n) % n` per axis. -/
theorem wrapPosition_in_bounds (boardWidth boardHeight : Int) (p : Position)
    (hw : 0 < boardWidth) (hh : 0 < boardHeight) :
    (0 ≤ (wrapPosition boardWidth boardHeight p).x ∧
      (wrapPosition boardWidth boardHeight p).x < boardWidth ∧
      0 ≤ (wrapPosition boardWidth boardHeight p).y ∧
      (wrapPosition boardWidth boardHeight p).y < boardHeight) ∧
    wrapPosition boardWidth boardHeight p =
      ⟨Int.tmod (Int.tmod p.x boardWidth + boardWidth) boardWidth,
       Int.tmod (Int.tmod p.y boardHeight + boardHeight) boardHeight⟩ := by
  obtain ⟨hx0, hx1⟩ := wrapCoord_bounds p.x hw
  obtain ⟨hy0, hy1⟩ := wrapCoord_bounds p.y hh
  exact ⟨⟨hx0, hx1, hy0, hy1⟩, rfl⟩

/-- Witness for C3: evaluate the theorem at board `40 × 40` and the
negative cell `(-7, -45)`. -/
theorem wrapPosition_in_bounds_witness :
    (0 ≤ (wrapPosition 40 40 ⟨-7, -45⟩).x ∧
      (wrapPosition 40 40 ⟨-7, -45⟩).x < 40 ∧
      0 ≤ (wrapPosition 40 40 ⟨-7, -45⟩).y ∧
      (wrapPosition 40 40 ⟨-7, -45⟩).y < 40) ∧
    wrapPosition 40 40 ⟨-7, -45⟩ =
      ⟨Int.tmod (Int.tmod (-7) 40 + 40) 40, Int.tmod (Int.tmod (-45) 40 + 40) 40⟩ :=
  wrapPosition_in_bounds 40 40 ⟨-7, -45⟩ (by decide) (by decide)

/-- C2: For every current direction and every requested direction, a
direction-change request equal to the exact reverse of the current
direction is always rejected (the stored direction is unchanged), and
any other requested direction is always accepted (the stored direction
becomes the requested one). -/
theorem direction_reversal_filter (lastDirection newDirection : Direction)
    (st : GameState) :
    (newDirection = oppositeDirections lastDirection →
      handleDirectionKey lastDirection newDirection st = (lastDirection, st)) ∧
    (newDirection ≠ oppositeDirections lastDirection →
      handleDirectionKey lastDirection newDirection st =
        (newDirection, { st with direction := newDirection })) := by
  constructor
  · intro h
    simp [handleDirectionKey, h]
  · intro h
    simp [handleDirectionKey, h, changeDirection]

/-- Witness for C2: from heading `RIGHT`, a `LEFT` request (the exact
reverse) is rejected and an `UP` request is accepted. -/
theorem direction_reversal_filter_witness :
    handleDirectionKey .RIGHT .LEFT stIdle = (.RIGHT, stIdle) ∧
    handleDirectionKey .RIGHT .UP stIdle = (.UP, { stIdle with direction := .UP }) :=
  ⟨(direction_reversal_filter .RIGHT .LEFT stIdle).1 rfl,
   (direction_reversal_filter .RIGHT .UP stIdle).2 (by decide)⟩

/-- C9: For the state with snake `(10,10),(9,10),(8,10)`, direction
`RIGHT`, `isPlaying` true, and no food, trap, or obstacle at the new
head cell, one tick produces the snake `(11,10),(10,10),(9,10)` with
the score unchanged. -/
theorem tick_scenario_straight_move :
    (moveSnake 40 40 (fun _ => ⟨0, 0⟩) st9 150).1.snake =
      [⟨11, 10⟩, ⟨10, 10⟩, ⟨9, 10⟩] ∧
    (moveSnake 40 40 (fun _ => ⟨0, 0⟩) st9 150).1.score = st9.score := by
  decide

/-- If the rejection loop stops before exhausting its attempt budget,
the returned candidate passed the conflict test.  The side condition
`maxAttempts ≤ attempts + fuel + 1` holds at the top-level call
(`fuel = maxAttempts`, `attempts = 0`) and is preserved by recursion. -/
theorem rejectionLoop_conflict_free (stream : Nat → Position)
    (conflict : Position → Bool) (maxAttempts : Nat) :
    ∀ fuel attempts, maxAttempts ≤ attempts + fuel + 1 →
      (rejectionLoop stream conflict maxAttempts fuel attempts).2 < maxAttempts →
      conflict (rejectionLoop stream conflict maxAttempts fuel attempts).1 = false := by
  intro fuel
  induction fuel with
  | zero =>
    intro attempts hside hlt
    have h1 : attempts + 1 < maxAttempts := hlt
    omega
  | succ fuel' ih =>
    intro attempts hside hlt
    rw [rejectionLoop] at hlt ⊢
    by_cases hc : (decide (attempts + 1 < maxAttempts) && conflict (stream attempts)) = true
    · rw [if_pos hc] at hlt ⊢
      exact ih (attempts + 1) (by omega) hlt
    · rw [if_neg hc] at hlt ⊢
      have h1 : attempts + 1 < maxAttempts := hlt
      simp only [Bool.and_eq_true, decide_eq_true_eq, not_and] at hc
      rcases Bool.eq_false_or_eq_true (conflict (stream attempts)) with hct | hcf
      · exact absurd hct (hc h1)
      · exact hcf

/-- The rejection loop exhausts its attempt budget exactly when every
candidate it tests for acceptance conflicts. -/
theorem rejectionLoop_exhausted_iff (stream : Nat → Position)
    (conflict : Position → Bool) (maxAttempts : Nat) :
    ∀ fuel attempts, maxAttempts ≤ attempts + fuel + 1 →
      (maxAttempts ≤ (rejectionLoop stream conflict maxAttempts fuel attempts).2 ↔
        ∀ j, attempts ≤ j → j + 1 < maxAttempts → conflict (stream j) = true) := by
  intro fuel
  induction fuel with
  | zero =>
    intro attempts hside
    constructor
    · intro hge j hj hjlt
      have h1 : maxAttempts ≤ attempts + 1 := hge
      omega
    · intro _
      show maxAttempts ≤ attempts + 1
      omega
  | succ fuel' ih =>
    intro attempts hside
    rw [rejectionLoop]
    by_cases hc : (decide (attempts + 1 < maxAttempts) && conflict (stream attempts)) = true
    · rw [if_pos hc]
      simp only [Bool.and_eq_true, decide_eq_true_eq] at hc
      rw [ih (attempts + 1) (by omega)]
      constructor
      · intro h j hj hjlt
        rcases Nat.eq_or_lt_of_le hj with rfl | hj'
        · exact hc.2
        · exact h j hj' hjlt
      · intro h j hj hjlt
        exact h j (by omega) hjlt
    · rw [if_neg hc]
      simp only [Bool.and_eq_true, decide_eq_true_eq, not_and] at hc
      constructor
      · intro hge j hj hjlt
        have h1 : maxAttempts ≤ attempts + 1 := hge
        omega
      · intro h
        show maxAttempts ≤ attempts + 1
        by_contra hlt
        have h1 : attempts + 1 < maxAttempts := by omega
        exact absurd (h attempts (le_refl attempts) h1) (by simpa using hc h1)

/-- C5: For every snake, trap list, and obstacle list, if
`generateRandomFood` finds a free cell within its attempt budget (the
budget is not exhausted), the returned food cell coincides with no
snake cell, no trap cell, and no obstacle footprint cell. -/
theorem generateRandomFood_free (stream : Nat → Position) (snake : List Position)
    (traps : List Trap) (obstacles : List Obstacle)
    (h : (generateRandomFood stream snake traps obstacles).2 < 100) :
    (snake.any fun segment =>
        segment.x == (generateRandomFood stream snake traps obstacles).1.x &&
        segment.y == (generateRandomFood stream snake traps obstacles).1.y) = false ∧
    (traps.any fun trap =>
        trap.x == (generateRandomFood stream snake traps obstacles).1.x &&
        trap.y == (generateRandomFood stream snake traps obstacles).1.y) = false ∧
    isObstacleCollision (generateRandomFood stream snake traps obstacles).1
      obstacles = false := by
  have hfree := rejectionLoop_conflict_free stream
    (foodConflict snake traps obstacles) 100 100 0 (by omega) h
  simpa [foodConflict, generateRandomFood, and_assoc] using hfree

/-- Witness for C5: a lone snake segment at `(1, 1)` and a first
candidate `(0, 0)`; the loop stops after one attempt and the returned
cell is free. -/
theorem generateRandomFood_free_witness :
    ((([⟨1, 1⟩] : List Position).any fun segment =>
        segment.x == (generateRandomFood (fun _ => ⟨0, 0⟩) [⟨1, 1⟩] [] []).1.x &&
        segment.y == (generateRandomFood (fun _ => ⟨0, 0⟩) [⟨1, 1⟩] [] []).1.y) = false) ∧
    ((([] : List Trap).any fun trap =>
        trap.x == (generateRandomFood (fun _ => ⟨0, 0⟩) [⟨1, 1⟩] [] []).1.x &&
        trap.y == (generateRandomFood (fun _ => ⟨0, 0⟩) [⟨1, 1⟩] [] []).1.y) = false) ∧
    isObstacleCollision (generateRandomFood (fun _ => ⟨0, 0⟩) [⟨1, 1⟩] [] []).1 [] = false :=
  generateRandomFood_free (fun _ => ⟨0, 0⟩) [⟨1, 1⟩] [] [] (by decide)

/-- C7: `generateRandomTrap` returns `null` exactly when its attempt
budget is exhausted without accepting a free cell (every candidate it
tests for acceptance conflicts), and otherwise returns a trap with
`isTriggered` false whose cell coincides with no snake cell, not the
food, no existing trap, and no obstacle footprint cell. -/
theorem generateRandomTrap_spec (stream : Nat → Position) (newId : String)
    (now : Int) (snake : List Position) (food : Position)
    (existingTraps : List Trap) (obstacles : List Obstacle) :
    (generateRandomTrap stream newId now snake food existingTraps obstacles = none ↔
      ∀ j, j + 1 < 100 →
        trapConflict snake food existingTraps obstacles (stream j) = true) ∧
    (∀ t, generateRandomTrap stream newId now snake food existingTraps obstacles = some t →
      t.isTriggered = false ∧
      (snake.any fun segment => segment.x == t.x && segment.y == t.y) = false ∧
      (food.x == t.x && food.y == t.y) = false ∧
      (existingTraps.any fun trap => trap.x == t.x && trap.y == t.y) = false ∧
      isObstacleCollision ⟨t.x, t.y⟩ obstacles = false) := by
  have hiff := rejectionLoop_exhausted_iff stream
    (trapConflict snake food existingTraps obstacles) 100 100 0 (by omega)
  constructor
  · rw [generateRandomTrap]
    by_cases hge : 100 ≤ (rejectionLoop stream
        (trapConflict snake food existingTraps obstacles) 100 100 0).2
    · rw [if_pos hge]
      simp only [true_iff]
      intro j hj
      exact (hiff.mp hge) j (Nat.zero_le j) hj
    · rw [if_neg hge]
      constructor
      · intro h
        exact absurd h (by simp)
      · intro hall
        exact absurd (hiff.mpr fun j _ hj => hall j hj) hge
  · intro t ht
    rw [generateRandomTrap] at ht
    by_cases hge : 100 ≤ (rejectionLoop stream
        (trapConflict snake food existingTraps obstacles) 100 100 0).2
    · rw [if_pos hge] at ht
      exact absurd ht (by simp)
    · rw [if_neg hge] at ht
      have hfree := rejectionLoop_conflict_free stream
        (trapConflict snake food existingTraps obstacles) 100 100 0 (by omega)
        (by omega)
      injection ht with ht
      subst ht
      simpa [trapConflict, and_assoc] using hfree

/-- Witness for C7: with snake `[(1,1)]`, food `(2,2)` and first
candidate `(0, 0)`, a trap is returned and satisfies the freeness
conjuncts. -/
theorem generateRandomTrap_spec_witness :
    Trap.isTriggered ⟨"trap_w", 0, 0, 5, false⟩ = false ∧
    ((([⟨1, 1⟩] : List Position).any fun segment =>
        segment.x == Trap.x ⟨"trap_w", 0, 0, 5, false⟩ &&
        segment.y == Trap.y ⟨"trap_w", 0, 0, 5, false⟩) = false) ∧
    ((Position.x ⟨2, 2⟩ == Trap.x ⟨"trap_w", 0, 0, 5, false⟩ &&
      Position.y ⟨2, 2⟩ == Trap.y ⟨"trap_w", 0, 0, 5, false⟩) = false) ∧
    ((([] : List Trap).any fun trap =>
        trap.x == Trap.x ⟨"trap_w", 0, 0, 5, false⟩ &&
        trap.y == Trap.y ⟨"trap_w", 0, 0, 5, false⟩) = false) ∧
    isObstacleCollision ⟨Trap.x ⟨"trap_w", 0, 0, 5, false⟩,
      Trap.y ⟨"trap_w", 0, 0, 5, false⟩⟩ [] = false :=
  (generateRandomTrap_spec (fun _ => ⟨0, 0⟩) "trap_w" 5 [⟨1, 1⟩] ⟨2, 2⟩ [] []).2
    ⟨"trap_w", 0, 0, 5, false⟩ (by decide)

/-- Counterexample for C1 as stated: at `st7` (pre-tick snake length 7,
next head on an untriggered trap, no terminal collision) the post-tick
snake length is `4`, not `max 1 (7 / 2) = 3`: the halving is applied to
the snake *after* the new head is prepended. -/
theorem trap_hit_length_counterexample :
    st7.snake.length = 7 ∧
    st7.isPlaying = true ∧ st7.isGameOver = false ∧
    checkSelfCollision (nextHead 40 40 st7 :: st7.snake) = false ∧
    isObstacleCollision (nextHead 40 40 st7) st7.obstacles = false ∧
    (st7.traps.find? fun trap =>
      !trap.isTriggered && trap.x == (nextHead 40 40 st7).x &&
        trap.y == (nextHead 40 40 st7).y).isSome = true ∧
    (moveSnake 40 40 (fun _ => ⟨0, 0⟩) st7 150).1.snake.length = 4 ∧
    (moveSnake 40 40 (fun _ => ⟨0, 0⟩) st7 150).1.snake.length ≠
      max 1 (st7.snake.length / 2) := by
  decide

/-- C1 (amended): For every tick in the Playing state in which the new
head lands on an untriggered trap (and no terminal collision occurs),
the post-tick snake length equals `max(1, floor((L + 1) / 2))` where
`L` is the pre-tick snake length, truncated from the tail (the halving
runs on the snake with the new head already prepended); in particular a
trap-hit on a snake of length 7 yields length 4 and a trap-hit on a
snake of length 1 leaves length 1. -/
theorem trap_hit_halves_after_prepend (boardWidth boardHeight : Int)
    (foodStream : Nat → Position) (st : GameState) (speed : Int)
    (hp : st.isPlaying = true) (hg : st.isGameOver = false)
    (hself : checkSelfCollision (nextHead boardWidth boardHeight st :: st.snake) = false)
    (hobs : isObstacleCollision (nextHead boardWidth boardHeight st) st.obstacles = false)
    (htrap : (st.traps.find? fun trap =>
      !trap.isTriggered && trap.x == (nextHead boardWidth boardHeight st).x &&
        trap.y == (nextHead boardWidth boardHeight st).y).isSome = true) :
    (moveSnake boardWidth boardHeight foodStream st speed).1.snake.length =
      max 1 ((st.snake.length + 1) / 2) := by
  obtain ⟨ht, hfind⟩ := Option.isSome_iff_exists.mp htrap
  have hred : (reduceSnakeLength (nextHead boardWidth boardHeight st :: st.snake)).length =
      max 1 ((st.snake.length + 1) / 2) := by
    simp only [reduceSnakeLength, List.length_take, List.length_cons]
    omega
  rw [moveSnake]
  rw [if_neg (by simp [hp, hg])]
  rw [if_neg (by simp [hself]), if_neg (by simp [hobs])]
  simp only [hfind]
  by_cases hate : ((nextHead boardWidth boardHeight st).x == st.food.x &&
      (nextHead boardWidth boardHeight st).y == st.food.y) = true
  · rw [if_pos hate]
    exact hred
  · rw [if_neg hate]
    exact hred

/-- Witness for C1 (amended): at `st7` the snake of pre-tick length 7
ends the tick at length `max 1 ((7 + 1) / 2) = 4`. -/
theorem trap_hit_halves_after_prepend_witness :
    (moveSnake 40 40 (fun _ => ⟨0, 0⟩) st7 150).1.snake.length =
      max 1 ((st7.snake.length + 1) / 2) :=
  trap_hit_halves_after_prepend 40 40 (fun _ => ⟨0, 0⟩) st7 150
    (by decide) (by decide) (by decide) (by decide) (by decide)

/-- C4: For every tick in which the new head collides with the snake
body or an obstacle, the state transitions to game over (`isGameOver`
becomes true, `isPlaying` becomes false) and the move is not committed:
the snake, food, score, traps, obstacles, and direction fields are all
unchanged (the returned state is exactly the previous state with only
the two flags flipped), and the tick interval is unchanged as well. -/
theorem terminal_collision_game_over (boardWidth boardHeight : Int)
    (foodStream : Nat → Position) (st : GameState) (speed : Int)
    (hp : st.isPlaying = true) (hg : st.isGameOver = false)
    (hcol : checkSelfCollision (nextHead boardWidth boardHeight st :: st.snake) = true ∨
      isObstacleCollision (nextHead boardWidth boardHeight st) st.obstacles = true) :
    (moveSnake boardWidth boardHeight foodStream st speed).1 =
      { st with isGameOver := true, isPlaying := false } ∧
    (moveSnake boardWidth boardHeight foodStream st speed).2 = speed := by
  have key : moveSnake boardWidth boardHeight foodStream st speed =
      ({ st with isGameOver := true, isPlaying := false }, speed) := by
    rw [moveSnake]
    rw [if_neg (by simp [hp, hg])]
    rcases hcol with hself | hobs
    · rw [if_pos (by simp [hself])]
    · rcases Bool.eq_false_or_eq_true
        (checkSelfCollision (nextHead boardWidth boardHeight st :: st.snake)) with
        hself | hself
      · rw [if_pos (by simp [hself])]
      · rw [if_neg (by simp [hself]), if_pos (by simp [hobs])]
  exact ⟨by rw [key], by rw [key]⟩

/-- Witness for C4: at `st4` the next head `(11, 10)` hits the snake
body; the tick flips the flags and leaves every other field unchanged. -/
theorem terminal_collision_game_over_witness :
    (moveSnake 40 40 (fun _ => ⟨0, 0⟩) st4 150).1 =
      { st4 with isGameOver := true, isPlaying := false } ∧
    (moveSnake 40 40 (fun _ => ⟨0, 0⟩) st4 150).2 = 150 :=
  terminal_collision_game_over 40 40 (fun _ => ⟨0, 0⟩) st4 150
    rfl rfl (Or.inl (by decide))

/-- C6: For every tick in which food is eaten, if the new score crosses
a multiple of 10 the tick interval decreases by the step (5 ms) exactly
once for that crossing and never goes below the minimum floor (50 ms);
if the new score is not a multiple of 10, the tick interval is
unchanged. -/
theorem food_score_speed_step (boardWidth boardHeight : Int)
    (foodStream : Nat → Position) (st : GameState) (speed : Int)
    (hp : st.isPlaying = true) (hg : st.isGameOver = false)
    (hself : checkSelfCollision (nextHead boardWidth boardHeight st :: st.snake) = false)
    (hobs : isObstacleCollision (nextHead boardWidth boardHeight st) st.obstacles = false)
    (hfood : nextHead boardWidth boardHeight st = st.food) :
    ((st.score + 1) % 10 = 0 →
      (moveSnake boardWidth boardHeight foodStream st speed).2 = max 50 (speed - 5) ∧
      50 ≤ (moveSnake boardWidth boardHeight foodStream st speed).2) ∧
    ((st.score + 1) % 10 ≠ 0 →
      (moveSnake boardWidth boardHeight foodStream st speed).2 = speed) := by
  have hate : ((nextHead boardWidth boardHeight st).x == st.food.x &&
      (nextHead boardWidth boardHeight st).y == st.food.y) = true := by
    rw [hfood]
    simp
  have key : (moveSnake boardWidth boardHeight foodStream st speed).2 =
      if (st.score + 1) % 10 == 0 then max 50 (speed - 5) else speed := by
    rw [moveSnake]
    rw [if_neg (by simp [hp, hg])]
    rw [if_neg (by simp [hself]), if_neg (by simp [hobs])]
    cases hfd : st.traps.find? fun trap =>
        !trap.isTriggered && trap.x == (nextHead boardWidth boardHeight st).x &&
          trap.y == (nextHead boardWidth boardHeight st).y with
    | none => rw [if_pos hate]
    | some ht => rw [if_pos hate]
  constructor
  · intro h10
    rw [key, if_pos (by simp [h10])]
    exact ⟨rfl, le_max_left 50 (speed - 5)⟩
  · intro h10
    rw [key, if_neg (by simp [h10])]

/-- Witness for C6: at `st6` (score 9, food at the next head cell) the
tick crosses 10 and the interval drops from 150 to `max 50 145 = 145`,
staying at or above the 50 ms floor. -/
theorem food_score_speed_step_witness :
    (moveSnake 40 40 (fun _ => ⟨0, 0⟩) st6 150).2 = max 50 (150 - 5) ∧
    50 ≤ (moveSnake 40 40 (fun _ => ⟨0, 0⟩) st6 150).2 :=
  (food_score_speed_step 40 40 (fun _ => ⟨0, 0⟩) st6 150
    rfl rfl (by decide) (by decide) (by decide)).1 (by decide)

/-- A tick never changes the number of traps: it either keeps the trap
list or maps the trigger flag over it. -/
theorem moveSnake_traps_length (boardWidth boardHeight : Int)
    (foodStream : Nat → Position) (st : GameState) (speed : Int) :
    (moveSnake boardWidth boardHeight foodStream st speed).1.traps.length =
      st.traps.length := by
  rw [moveSnake]
  by_cases h0 : (!st.isPlaying || st.isGameOver) = true
  · rw [if_pos h0]
  · rw [if_neg h0]
    by_cases h1 : checkSelfCollision (nextHead boardWidth boardHeight st :: st.snake) = true
    · rw [if_pos h1]
    · rw [if_neg h1]
      by_cases h2 : isObstacleCollision (nextHead boardWidth boardHeight st)
          st.obstacles = true
      · rw [if_pos h2]
      · rw [if_neg h2]
        cases hfd : st.traps.find? fun trap =>
            !trap.isTriggered && trap.x == (nextHead boardWidth boardHeight st).x &&
              trap.y == (nextHead boardWidth boardHeight st).y with
        | none =>
          by_cases hate : ((nextHead boardWidth boardHeight st).x == st.food.x &&
              (nextHead boardWidth boardHeight st).y == st.food.y) = true
          · rw [if_pos hate]
          · rw [if_neg hate]
        | some ht =>
          by_cases hate : ((nextHead boardWidth boardHeight st).x == st.food.x &&
              (nextHead boardWidth boardHeight st).y == st.food.y) = true
          · rw [if_pos hate]
            simp [List.length_map]
          · rw [if_neg hate]
            simp [List.length_map]

/-- C8: The number of live traps never exceeds the configured maximum:
starting from a state with at most `maxTraps` traps, every operation
(tick, trap-scheduler firing, obstacle reshape, pause toggle, reset,
delayed trap removal) preserves `traps.length ≤ maxTraps`; the trap
scheduler adds a trap only when the current count is strictly below the
maximum and no other operation adds traps. -/
theorem trap_count_bounded (boardWidth boardHeight : Int)
    (foodStream stream2 foodStream2 foodStream3 : Nat → Position) (speed : Int)
    (newId : String) (now : Int) (maxTraps : Nat) (rand rand2 : Nat → Int → Int)
    (minSize maxSize : Int) (count : Nat) (safeDistance now2 newCountdown : Int)
    (initialSnake : List Position) (newCountdown2 : Int) (hitTrapId : String)
    (st : GameState) (h : st.traps.length ≤ maxTraps) :
    (moveSnake boardWidth boardHeight foodStream st speed).1.traps.length ≤ maxTraps ∧
    (trapSchedulerFire stream2 newId now maxTraps st).traps.length ≤ maxTraps ∧
    (obstacleReshapeStep rand foodStream2 boardWidth boardHeight minSize maxSize count
      safeDistance now2 newCountdown st).traps.length ≤ maxTraps ∧
    (togglePauseState st).traps.length ≤ maxTraps ∧
    (resetGameState rand2 foodStream3 boardWidth boardHeight minSize maxSize count
      initialSnake newCountdown2).traps.length ≤ maxTraps ∧
    (trapRemovalStep hitTrapId st).traps.length ≤ maxTraps := by
  refine ⟨?_, ?_, ?_, h, Nat.zero_le maxTraps, ?_⟩
  · rw [moveSnake_traps_length]
    exact h
  · rw [trapSchedulerFire]
    by_cases h0 : (!st.isPlaying || st.isGameOver ||
        decide (maxTraps ≤ st.traps.length)) = true
    · rw [if_pos h0]
      exact h
    · rw [if_neg h0]
      have hlt : st.traps.length < maxTraps := by
        simp only [Bool.or_eq_true, decide_eq_true_eq, not_or] at h0
        omega
      cases hg : generateRandomTrap stream2 newId now st.snake st.food st.traps
          st.obstacles with
      | none => exact h
      | some t =>
        simp only [List.length_append, List.length_singleton]
        omega
  · rw [obstacleReshapeStep]
    by_cases h0 : (!st.isPlaying || st.isGameOver) = true
    · rw [if_pos h0]
      exact h
    · rw [if_neg h0]
      by_cases h1 : st.obstacleReshapeCountdown - 1 ≤ 0
      · rw [if_pos h1]
        exact h
      · rw [if_neg h1]
        exact h
  · exact le_trans (List.length_filter_le _ st.traps) h

/-- Witness for C8: at `st8` (exactly 3 traps) with `maxTraps = 3`,
every modelled operation keeps the trap count at or below 3. -/
theorem trap_count_bounded_witness :
    (moveSnake 40 40 (fun _ => ⟨0, 0⟩) st8 150).1.traps.length ≤ 3 ∧
    (trapSchedulerFire (fun _ => ⟨0, 0⟩) "t4" 0 3 st8).traps.length ≤ 3 ∧
    (obstacleReshapeStep (fun _ _ => 0) (fun _ => ⟨0, 0⟩) 40 40 2 4 1
      5 0 30 st8).traps.length ≤ 3 ∧
    (togglePauseState st8).traps.length ≤ 3 ∧
    (resetGameState (fun _ _ => 0) (fun _ => ⟨0, 0⟩) 40 40 2 4 1
      [⟨10, 10⟩, ⟨9, 10⟩, ⟨8, 10⟩] 30).traps.length ≤ 3 ∧
    (trapRemovalStep "t1" st8).traps.length ≤ 3 :=
  trap_count_bounded 40 40 (fun _ => ⟨0, 0⟩) (fun _ => ⟨0, 0⟩) (fun _ => ⟨0, 0⟩)
    (fun _ => ⟨0, 0⟩) 150 "t4" 0 3 (fun _ _ => 0) (fun _ _ => 0) 2 4 1 5 0 30
    [⟨10, 10⟩, ⟨9, 10⟩, ⟨8, 10⟩] 30 "t1" st8 (by decide)

/-- A random origin drawn as `Math.floor(Math.random() * (bound - extent))`
keeps the whole extent inside `[0, bound]`, provided the extent fits the
board.  The `bound - extent = 0` case is `Math.floor(r * 0) = 0`. -/
theorem rand_origin_bound (rand : Nat → Int → Int)
    (Hrand : ∀ i k, 0 < k → 0 ≤ rand i k ∧ rand i k < k)
    (Hrand0 : ∀ i, rand i 0 = 0)
    (j : Nat) (extent bound : Int) (hle : extent ≤ bound) :
    0 ≤ rand j (bound - extent) ∧ rand j (bound - extent) + extent ≤ bound := by
  rcases lt_or_eq_of_le (sub_nonneg.mpr hle) with hpos | hzero
  · have hb := Hrand j (bound - extent) hpos
    omega
  · rw [← hzero, Hrand0 j]
    omega

/-- Any obstacle successfully placed by the bounded-retry attempt loop
lies entirely within the board, given the `Math.random` contract and
sizes that fit the board. -/
theorem attemptObstacle_some_in_bounds (rand : Nat → Int → Int)
    (boardWidth boardHeight minSize maxSize : Int) (idStr : String)
    (Hrand : ∀ i k, 0 < k → 0 ≤ rand i k ∧ rand i k < k)
    (Hrand0 : ∀ i, rand i 0 = 0)
    (hms : minSize ≤ maxSize) (hbw : maxSize ≤ boardWidth)
    (hbh : maxSize ≤ boardHeight) :
    ∀ fuel ctr used obstacle ctr' used',
      attemptObstacle rand boardWidth boardHeight minSize maxSize idStr fuel ctr used =
        (some obstacle, ctr', used') →
      obstacleInBounds boardWidth boardHeight obstacle = true := by
  intro fuel
  induction fuel with
  | zero =>
    intro ctr used obstacle ctr' used' heq
    exact absurd heq (by simp [attemptObstacle])
  | succ fuel' ih =>
    intro ctr used obstacle ctr' used' heq
    rw [attemptObstacle] at heq
    split at heq
    · exact ih _ _ _ _ _ heq
    · simp only [Prod.mk.injEq, Option.some.injEq] at heq
      obtain ⟨hob, -, -⟩ := heq
      subst hob
      have hk : (0 : Int) < maxSize - minSize + 1 := by omega
      have hw := Hrand ctr (maxSize - minSize + 1) hk
      have hh := Hrand (ctr + 1) (maxSize - minSize + 1) hk
      have hx := rand_origin_bound rand Hrand Hrand0 (ctr + 2)
        (rand ctr (maxSize - minSize + 1) + minSize) boardWidth (by omega)
      have hy := rand_origin_bound rand Hrand Hrand0 (ctr + 3)
        (rand (ctr + 1) (maxSize - minSize + 1) + minSize) boardHeight (by omega)
      simp only [obstacleInBounds, Bool.and_eq_true, decide_eq_true_eq]
      omega

/-- Every obstacle produced by the outer placement loop lies entirely
within the board. -/
theorem placeObstaclesLoop_in_bounds (rand : Nat → Int → Int)
    (boardWidth boardHeight minSize maxSize : Int) (maxAttempts : Nat)
    (idOf : Nat → String)
    (Hrand : ∀ i k, 0 < k → 0 ≤ rand i k ∧ rand i k < k)
    (Hrand0 : ∀ i, rand i 0 = 0)
    (hms : minSize ≤ maxSize) (hbw : maxSize ≤ boardWidth)
    (hbh : maxSize ≤ boardHeight) :
    ∀ remaining i ctr used,
      (placeObstaclesLoop rand boardWidth boardHeight minSize maxSize maxAttempts idOf
        remaining i ctr used).all (obstacleInBounds boardWidth boardHeight) = true := by
  intro remaining
  induction remaining with
  | zero =>
    intro i ctr used
    rfl
  | succ r ih =>
    intro i ctr used
    rw [placeObstaclesLoop]
    rcases hat : attemptObstacle rand boardWidth boardHeight minSize maxSize (idOf i)
        maxAttempts ctr used with ⟨ob, ctr', used'⟩
    cases ob with
    | none => exact ih (i + 1) ctr' used'
    | some o =>
      simp only [List.all_cons, Bool.and_eq_true]
      exact ⟨attemptObstacle_some_in_bounds rand boardWidth boardHeight minSize maxSize
        (idOf i) Hrand Hrand0 hms hbw hbh maxAttempts ctr used o ctr' used' hat,
        ih (i + 1) ctr' used'⟩

/-- C10: Every obstacle produced by `generateObstacles` or
`generateSafeObstacles` lies entirely within the board: for each
obstacle, `0 ≤ x`, `x + width ≤ boardWidth`, `0 ≤ y`, and
`y + height ≤ boardHeight` (given each chosen obstacle size is at most
the board size — here: `maxSize` bounded by both board dimensions — and
the `Math.floor(Math.random() * k)` contract), so an obstacle rectangle
never extends past a board edge. -/
theorem obstacles_within_board (rand : Nat → Int → Int)
    (boardWidth boardHeight minSize maxSize : Int) (count count2 : Nat)
    (safeDistance now : Int) (initialSnake currentSnake : List Position)
    (Hrand : ∀ i k, 0 < k → 0 ≤ rand i k ∧ rand i k < k)
    (Hrand0 : ∀ i, rand i 0 = 0)
    (hms : minSize ≤ maxSize) (hbw : maxSize ≤ boardWidth)
    (hbh : maxSize ≤ boardHeight) :
    (generateObstacles rand boardWidth boardHeight minSize maxSize count
      initialSnake).all (obstacleInBounds boardWidth boardHeight) = true ∧
    (generateSafeObstacles rand boardWidth boardHeight minSize maxSize count2
      safeDistance now currentSnake).all (obstacleInBounds boardWidth boardHeight) = true :=
  ⟨placeObstaclesLoop_in_bounds rand boardWidth boardHeight minSize maxSize 100
    (fun i => "obstacle_" ++ toString i) Hrand Hrand0 hms hbw hbh count 0 0
    (snakeExclusionCells boardWidth boardHeight 3 initialSnake),
   placeObstaclesLoop_in_bounds rand boardWidth boardHeight minSize maxSize 200
    (fun i => "obstacle_reshape_" ++ toString now ++ "_" ++ toString i) Hrand Hrand0
    hms hbw hbh count2 0 0
    (snakeExclusionCells boardWidth boardHeight safeDistance currentSnake)⟩

/-- Witness for C10: the constant-zero sampler satisfies the
`Math.random` contract, and on a `20 × 20` board with sizes in `[2, 4]`
both generators yield only in-bounds obstacles. -/
theorem obstacles_within_board_witness :
    (generateObstacles (fun _ _ => 0) 20 20 2 4 1 []).all
      (obstacleInBounds 20 20) = true ∧
    (generateSafeObstacles (fun _ _ => 0) 20 20 2 4 1 5 0 []).all
      (obstacleInBounds 20 20) = true :=
  obstacles_within_board (fun _ _ => 0) 20 20 2 4 1 1 5 0 [] []
    (fun _ k hk => ⟨le_refl 0, hk⟩) (fun _ => rfl)
    (by decide) (by decide) (by decide)

end Snake
